import Mathlib

/-!
Shallow embedding of the connection/substream lifecycle core of the
`litep2p` repository, covering:

- `src/protocol/notification/negotiation.rs` (`HandshakeService`)
- `src/protocol/mod.rs` (`ProtocolInfo`, `ProtocolName` display)
- `src/transport/websocket/mod.rs` (`WebSocketTransport`)
- `src/transport/quic/connection.rs` (`QuicConnection` event loop arms)

External collaborators (substream I/O, sockets, channels) are modelled as
scripted outcomes; each definition mirrors the corresponding Rust item.
-/

namespace Litep2p

/-- Peer identity, `crate::peer_id::PeerId`; opaque here. -/
abbrev PeerId := Nat

/-- Connection identifier, `crate::types::ConnectionId`. -/
abbrev ConnectionId := Nat

/-- Substream identifier, `crate::types::SubstreamId`. -/
abbrev SubstreamId := Nat

/-- Byte vector `Vec<u8>`. -/
abbrev Bytes := List Nat

/-- Protocol name `crate::types::protocol::ProtocolName`, string-like. -/
abbrev ProtocolName := String

/-- Association-list insert mirroring `HashMap::insert`: replaces the value
stored under an existing key, otherwise appends a fresh entry. -/
def insertAssoc {κ α : Type} [DecidableEq κ] (key : κ) (val : α) :
    List (κ × α) → List (κ × α)
  | [] => [(key, val)]
  | (k, v) :: rest =>
      if k = key then (key, val) :: rest else (k, v) :: insertAssoc key val rest

/-- Association-list lookup mirroring `HashMap::get`. -/
def lookupAssoc {κ α : Type} [DecidableEq κ] (key : κ) :
    List (κ × α) → Option α
  | [] => none
  | (k, v) :: rest => if k = key then some v else lookupAssoc key rest

/-- Association-list removal mirroring `HashMap::remove` (keys are unique by
construction through `insertAssoc`). -/
def removeAssoc {κ α : Type} [DecidableEq κ] (key : κ) :
    List (κ × α) → List (κ × α)
  | [] => []
  | (k, v) :: rest => if k = key then rest else (k, v) :: removeAssoc key rest

/-- Outcome of one non-blocking I/O poll (`Poll<Result<(), Error>>`). -/
inductive IOResult
  | ok
  | err
  | pend
deriving DecidableEq

/-- Outcome of one `Stream::poll_next` call on a substream
(`Poll<Option<Result<BytesMut, Error>>>`). -/
inductive ReadResult
  | data (bytes : Bytes)
  | ioErr
  | closed
  | pend
deriving DecidableEq

/-- Model of a `Box<dyn Substream>`: scripted responses for each of the four
non-blocking primitives the handshake engine uses, plus a record of every
payload accepted by `start_send`. -/
structure Substream where
  readyScript : List IOResult
  sendScript : List IOResult
  flushScript : List IOResult
  readScript : List ReadResult
  sent : List Bytes
deriving DecidableEq

/-- The `Sink::poll_ready` primitive: consumes the next scripted outcome;
an exhausted script reads as not-ready. -/
def pollReadySub (s : Substream) : IOResult × Substream :=
  match s.readyScript with
  | [] => (.pend, s)
  | r :: rest => (r, { s with readyScript := rest })

/-- The `Sink::start_send` primitive (synchronous): `true` is `Ok(())`.
A successful send records the payload handed over by the caller. -/
def startSendSub (s : Substream) (bytes : Bytes) : Bool × Substream :=
  match s.sendScript with
  | [] => (true, { s with sent := s.sent ++ [bytes] })
  | .ok :: rest => (true, { s with sendScript := rest, sent := s.sent ++ [bytes] })
  | _ :: rest => (false, { s with sendScript := rest })

/-- The `Sink::poll_flush` primitive. -/
def pollFlushSub (s : Substream) : IOResult × Substream :=
  match s.flushScript with
  | [] => (.pend, s)
  | r :: rest => (r, { s with flushScript := rest })

/-- The `Stream::poll_next` primitive on the substream. -/
def pollNextSub (s : Substream) : ReadResult × Substream :=
  match s.readScript with
  | [] => (.pend, s)
  | r :: rest => (r, { s with readScript := rest })

/-- Total number of scripted responses left on a substream. -/
def scriptSize (s : Substream) : Nat :=
  s.readyScript.length + s.sendScript.length + s.flushScript.length +
    s.readScript.length

/-- Substream direction (`negotiation.rs`, enum `Direction`). -/
inductive Direction
  | Outbound
  | Inbound
  | InboundAccepting
deriving DecidableEq

/-- Per-entry handshake state (`negotiation.rs`, `OutboundHandshakeState`),
shared by all three direction paths as in the source. -/
inductive OutboundHandshakeState
  | SendHandshake
  | SinkReady
  | HandshakeSent
  | ReadHandshake
deriving DecidableEq

/-- Events emitted by the handshake service (`HandshakeEvent`). -/
inductive HandshakeEvent
  | OutboundNegotiated (peer : PeerId) (handshake : Bytes) (substream : Substream)
  | OutboundNegotiationError (peer : PeerId)
  | InboundNegotiated (peer : PeerId) (handshake : Bytes) (substream : Substream)
  | InboundNegotiationError (peer : PeerId)
  | InboundAccepted (peer : PeerId) (substream : Substream)
deriving DecidableEq

/-- State of `HandshakeService`: local handshake payload, the pending
substream map (`substreams`), and the FIFO ready queue (`VecDeque`, the head
of the list is the front). The unused `pending_outbound`/`pending_inbound`
fields of the source are write-never and omitted. -/
structure HandshakeService where
  handshake : Bytes
  substreams : List ((PeerId × Direction) × (Substream × OutboundHandshakeState))
  ready : List (PeerId × Direction × Bytes)
deriving DecidableEq

namespace HandshakeService

/-- `HandshakeService::new`. -/
def new (handshake : Bytes) : HandshakeService :=
  { handshake := handshake, substreams := [], ready := [] }

/-- `HandshakeService::set_handshake`. -/
def set_handshake (s : HandshakeService) (handshake : Bytes) : HandshakeService :=
  { s with handshake := handshake }

/-- `HandshakeService::remove_outbound`: removes and returns the substream
registered under `(peer, Outbound)`. -/
def remove_outbound (s : HandshakeService) (peer : PeerId) :
    Option Substream × HandshakeService :=
  match lookupAssoc (peer, Direction.Outbound) s.substreams with
  | some (sub, _) =>
      (some sub,
       { s with substreams := removeAssoc (peer, Direction.Outbound) s.substreams })
  | none => (none, s)

/-- `HandshakeService::remove_inbound`. -/
def remove_inbound (s : HandshakeService) (peer : PeerId) :
    Option Substream × HandshakeService :=
  match lookupAssoc (peer, Direction.Inbound) s.substreams with
  | some (sub, _) =>
      (some sub,
       { s with substreams := removeAssoc (peer, Direction.Inbound) s.substreams })
  | none => (none, s)

/-- `HandshakeService::negotiate_outbound`: registers the substream under
`(peer, Outbound)` in state `SendHandshake`. -/
def negotiate_outbound (s : HandshakeService) (peer : PeerId) (substream : Substream) :
    HandshakeService :=
  let updated := insertAssoc (peer, Direction.Outbound)
    (substream, OutboundHandshakeState.SendHandshake) s.substreams
  { s with substreams := updated }

/-- `HandshakeService::accept_inbound`: registers the substream under
`(peer, InboundAccepting)` in state `ReadHandshake`. -/
def accept_inbound (s : HandshakeService) (peer : PeerId) (substream : Substream) :
    HandshakeService :=
  let updated := insertAssoc (peer, Direction.InboundAccepting)
    (substream, OutboundHandshakeState.ReadHandshake) s.substreams
  { s with substreams := updated }

/-- `HandshakeService::read_handshake`: registers the substream under
`(peer, Inbound)` in state `ReadHandshake`. -/
def read_handshake (s : HandshakeService) (peer : PeerId) (substream : Substream) :
    HandshakeService :=
  let updated := insertAssoc (peer, Direction.Inbound)
    (substream, OutboundHandshakeState.ReadHandshake) s.substreams
  { s with substreams := updated }

/-- `HandshakeService::send_handshake`: registers the substream under
`(peer, Inbound)` in state `SendHandshake`. -/
def send_handshake (s : HandshakeService) (peer : PeerId) (substream : Substream) :
    HandshakeService :=
  let updated := insertAssoc (peer, Direction.Inbound)
    (substream, OutboundHandshakeState.SendHandshake) s.substreams
  { s with substreams := updated }

/-- `HandshakeService::is_empty`. -/
def is_empty (s : HandshakeService) : Bool :=
  s.substreams.isEmpty

end HandshakeService

/-- Result of driving one pending entry as far as its non-blocking I/O
allows (the inner `loop` of `HandshakeService::poll_next`). The substream and
state returned are the values left behind in the map. -/
inductive StepOutcome
  | errorEvent (sub : Substream) (st : OutboundHandshakeState)
  | completed (item : PeerId × Direction × Bytes) (sub : Substream)
      (st : OutboundHandshakeState)
  | suspended (sub : Substream) (st : OutboundHandshakeState)
deriving DecidableEq

/-- Substream left behind by a step outcome. -/
def StepOutcome.substream : StepOutcome → Substream
  | .errorEvent sub _ => sub
  | .completed _ sub _ => sub
  | .suspended sub _ => sub

/-- The inner `loop` of `HandshakeService::poll_next` for one map entry:
advances the state machine, consuming scripted I/O outcomes, until the entry
errors (`OutboundNegotiationError` is returned for every direction, as in the
source), completes (pushed onto the ready queue), or suspends
(`Poll::Pending`, continue with the outer loop). Fuel bounds the iteration count; each
productive iteration consumes a scripted response. -/
def stepEntry (handshake : Bytes) (peer : PeerId) (dir : Direction) :
    Nat → Substream → OutboundHandshakeState → StepOutcome
  | 0, sub, st => .suspended sub st
  | fuel + 1, sub, st =>
    match st with
    | .SendHandshake =>
      match pollReadySub sub with
      | (.ok, sub') => stepEntry handshake peer dir fuel sub' .SinkReady
      | (.err, sub') => .errorEvent sub' .SendHandshake
      | (.pend, sub') => .suspended sub' .SendHandshake
    | .SinkReady =>
      match startSendSub sub handshake with
      | (true, sub') => stepEntry handshake peer dir fuel sub' .HandshakeSent
      | (false, sub') => .errorEvent sub' .SinkReady
    | .HandshakeSent =>
      match pollFlushSub sub with
      | (.ok, sub') =>
        match dir with
        | .Outbound => stepEntry handshake peer dir fuel sub' .ReadHandshake
        | .Inbound => .completed (peer, Direction.Inbound, []) sub' .HandshakeSent
        | .InboundAccepting =>
            .completed (peer, Direction.InboundAccepting, []) sub' .HandshakeSent
      | (.err, sub') => .errorEvent sub' .HandshakeSent
      | (.pend, sub') => .suspended sub' .HandshakeSent
    | .ReadHandshake =>
      match pollNextSub sub with
      | (.data bytes, sub') =>
        match dir with
        | .InboundAccepting => stepEntry handshake peer dir fuel sub' .SendHandshake
        | .Outbound => .completed (peer, Direction.Outbound, bytes) sub' .ReadHandshake
        | .Inbound => .completed (peer, Direction.Inbound, bytes) sub' .ReadHandshake
      | (.ioErr, sub') => .errorEvent sub' .ReadHandshake
      | (.closed, sub') => .errorEvent sub' .ReadHandshake
      | (.pend, sub') => .suspended sub' .ReadHandshake

/-- Drives one entry with enough fuel for every scripted response plus the
handful of fuel-free state transitions. -/
def runEntry (handshake : Bytes) (peer : PeerId) (dir : Direction)
    (sub : Substream) (st : OutboundHandshakeState) : StepOutcome :=
  stepEntry handshake peer dir (scriptSize sub + 5) sub st

/-- One map entry of the handshake service. -/
abbrev ServiceEntry :=
  (PeerId × Direction) × (Substream × OutboundHandshakeState)

/-- The labeled outer loop of `HandshakeService::poll_next`: walks the entries in
map order, advancing each one. An error aborts the walk and names the peer of
the failing entry; completions are pushed (in walk order) for the ready
queue. Mutated entries are written back in place, also on the error path. -/
def progressLoop (handshake : Bytes) :
    List ServiceEntry →
      Option PeerId × List ServiceEntry × List (PeerId × Direction × Bytes)
  | [] => (none, [], [])
  | ((peer, dir), (sub, st)) :: rest =>
    match runEntry handshake peer dir sub st with
    | .errorEvent sub' st' => (some peer, ((peer, dir), (sub', st')) :: rest, [])
    | .completed item sub' st' =>
      let (e, entries, adds) := progressLoop handshake rest
      (e, ((peer, dir), (sub', st')) :: entries, item :: adds)
    | .suspended sub' st' =>
      let (e, entries, adds) := progressLoop handshake rest
      (e, ((peer, dir), (sub', st')) :: entries, adds)

/-- Result of one `HandshakeService::poll_next` invocation. `panicked` stands
for an `expect`/`todo` panic in the source. -/
inductive PollOutcome
  | event (peer : PeerId) (ev : HandshakeEvent)
  | pending
  | panicked
deriving DecidableEq

/-- Number of events carried by a poll outcome. -/
def PollOutcome.eventCount : PollOutcome → Nat
  | .event _ _ => 1
  | _ => 0

/-- One `ready.pop_front()` block of `HandshakeService::poll_next`. The two
pops in the source differ only in the `InboundAccepting` arm: the first pop
(entry of the function) is `todo!()` there — modelled `panicked` when
`allowAccepting` is false — while the second pop removes the entry and emits
`InboundAccepted`. A missing map entry models the `expect("peer to exist")`
panic. -/
def popReady (allowAccepting : Bool) (s : HandshakeService) :
    Option (PollOutcome × HandshakeService) :=
  match s.ready with
  | [] => none
  | (peer, dir, hs) :: rest =>
    match dir with
    | .Outbound =>
      match lookupAssoc (peer, Direction.Outbound) s.substreams with
      | some (sub, _) =>
        some (.event peer (.OutboundNegotiated peer hs sub),
              { s with ready := rest,
                       substreams := removeAssoc (peer, Direction.Outbound) s.substreams })
      | none => some (.panicked, { s with ready := rest })
    | .Inbound =>
      match lookupAssoc (peer, Direction.Inbound) s.substreams with
      | some (sub, _) =>
        some (.event peer (.InboundNegotiated peer hs sub),
              { s with ready := rest,
                       substreams := removeAssoc (peer, Direction.Inbound) s.substreams })
      | none => some (.panicked, { s with ready := rest })
    | .InboundAccepting =>
      if allowAccepting then
        match lookupAssoc (peer, Direction.InboundAccepting) s.substreams with
        | some (sub, _) =>
          some (.event peer (.InboundAccepted peer sub),
                { s with ready := rest,
                         substreams := removeAssoc (peer, Direction.InboundAccepting) s.substreams })
        | none => some (.panicked, { s with ready := rest })
      else
        some (.panicked, { s with ready := rest })

/-- `HandshakeService::poll_next` (the `Stream` implementation): first pop of
the ready queue (with the `todo!()` arm), then the emptiness check, then the
progress loop over all entries — an error returns immediately with the
mutations made so far — and finally the second pop of the ready queue. -/
def pollNext (s : HandshakeService) : PollOutcome × HandshakeService :=
  match popReady false s with
  | some r => r
  | none =>
    if s.substreams = [] then (.pending, s)
    else
      match progressLoop s.handshake s.substreams with
      | (some peer, entries, adds) =>
        (.event peer (.OutboundNegotiationError peer),
         { s with substreams := entries, ready := s.ready ++ adds })
      | (none, entries, adds) =>
        let s' : HandshakeService :=
          { s with substreams := entries, ready := s.ready ++ adds }
        match popReady true s' with
        | some r => r
        | none => (.pending, s')

/-- One protocol component of a `Multiaddr` (`multiaddr::Protocol`), reduced
to the constructors `WebSocketTransport::multiaddr_into_url` inspects. The
`P2p` component carries the peer id its multihash decodes to. -/
inductive MProtocol
  | Ip4 (addr : String)
  | Ip6 (addr : String)
  | Dns (addr : String)
  | Dns4 (addr : String)
  | Dns6 (addr : String)
  | Tcp (port : Nat)
  | Ws (path : String)
  | Wss (path : String)
  | P2p (peer : PeerId)
  | OtherP (code : Nat)
deriving DecidableEq

/-- A multiaddress is its protocol stack. -/
abbrev Multiaddr := List MProtocol

/-- Error type (`crate::error::Error`), reduced to the variants the modelled
code constructs or matches on; `Other` stands for any remaining variant. -/
inductive Error
  | Timeout
  | ProtocolNotSupported (name : String)
  | ConnectionDoesntExist (id : ConnectionId)
  | TransportNotSupported (address : Multiaddr)
  | AddressErrorPeerIdMissing
  | InvalidData
  | InvalidState
  | ChannelClosed
  | Unknown
  | Other (code : Nat)
deriving DecidableEq

/-! The protocol dispatcher, `src/protocol/mod.rs` (`ProtocolInfo`). -/

/-- Events emitted by a connection to protocols (`ConnectionEvent`); the
boxed substream is an opaque token. -/
inductive ConnectionEvent
  | SubstreamOpened (peer : PeerId) (substream : Nat)
  | SubstreamOpenFailure (peer : PeerId) (error : Error)
deriving DecidableEq

/-- A bounded `tokio::sync::mpsc` channel of connection events: capacity,
whether the receiving half is gone, and the queued events in send order. -/
structure EventChannel where
  capacity : Nat
  closed : Bool
  queued : List ConnectionEvent
deriving DecidableEq

/-- Result of a bounded-channel `send(..).await`: delivered, suspended on a
full channel (the call parks until capacity frees), or failed because the
receiver was dropped. -/
inductive SendOutcome
  | sent (ch : EventChannel)
  | suspendedFull
  | receiverGone
deriving DecidableEq

/-- Appending one event to the queue of a channel. -/
def pushEvent (ch : EventChannel) (ev : ConnectionEvent) : EventChannel :=
  { ch with queued := ch.queued ++ [ev] }

/-- Bounded-channel send. -/
def sendEvent (ch : EventChannel) (ev : ConnectionEvent) : SendOutcome :=
  if ch.closed then .receiverGone
  else if ch.queued.length < ch.capacity then .sent (pushEvent ch ev)
  else .suspendedFull

/-- `ProtocolInfo`: the static protocol-name-to-channel table; the shared
request receiver is not needed by the modelled entry points. -/
structure ProtocolInfo where
  protocols : List (ProtocolName × EventChannel)
deriving DecidableEq

/-- Result of a `report_substream_open`/`report_substream_open_failure`
call: the event was forwarded (table updated), the call suspended awaiting
channel capacity, or an error was returned to the caller. -/
inductive ReportResult
  | forwarded (info : ProtocolInfo)
  | suspendedFull
  | failed (error : Error)
deriving DecidableEq

/-- `ProtocolInfo::report_substream_open`: looks the protocol up; a missing
entry returns `Err(ProtocolNotSupported(name))` without touching any
channel, a present entry forwards a `SubstreamOpened` event on the
channel of that protocol (`send(..).await.map_err(From::from)`). -/
def ProtocolInfo.report_substream_open (info : ProtocolInfo)
    (protocol : ProtocolName) (peer : PeerId) (substream : Nat) : ReportResult :=
  match lookupAssoc protocol info.protocols with
  | some ch =>
    match sendEvent ch (.SubstreamOpened peer substream) with
    | .sent ch' => .forwarded { protocols := insertAssoc protocol ch' info.protocols }
    | .suspendedFull => .suspendedFull
    | .receiverGone => .failed .ChannelClosed
  | none => .failed (.ProtocolNotSupported protocol)

/-- `ProtocolInfo::report_substream_open_failure`: same lookup, forwards a
`SubstreamOpenFailure` event. -/
def ProtocolInfo.report_substream_open_failure (info : ProtocolInfo)
    (protocol : ProtocolName) (peer : PeerId) (error : Error) : ReportResult :=
  match lookupAssoc protocol info.protocols with
  | some ch =>
    match sendEvent ch (.SubstreamOpenFailure peer error) with
    | .sent ch' => .forwarded { protocols := insertAssoc protocol ch' info.protocols }
    | .suspendedFull => .suspendedFull
    | .receiverGone => .failed .ChannelClosed
  | none => .failed (.ProtocolNotSupported protocol)

/-! Display of `crate::protocol::ProtocolName`, `src/protocol/mod.rs`. -/

namespace ProtoMod

/-- The enum `crate::protocol::ProtocolName` of `src/protocol/mod.rs`
(distinct from the string-like `crate::types::protocol::ProtocolName`). -/
inductive ProtocolName
  | Static (name : String)
deriving DecidableEq

/-- Fuel-indexed unfolding of `impl Display for ProtocolName`: the body is
`write!(f, "...", self)` with a display placeholder, which re-enters
`Display::fmt` on the same value, so each unfolding step recurses on `p`
unchanged; `some` would be produced only by a terminating recursion. -/
def displayFmt : Nat → ProtocolName → Option String
  | 0, _ => none
  | fuel + 1, p => displayFmt fuel p

/-- `Libp2pProtocol` of `src/protocol/mod.rs`. -/
structure Libp2pProtocol where
  name : ProtocolName
deriving DecidableEq

/-- `Libp2pProtocol::to_string`, which formats `self.name` via the
`Display` implementation above. -/
def Libp2pProtocol.to_string (p : Libp2pProtocol) (fuel : Nat) : Option String :=
  displayFmt fuel p.name

/-- `NotificationProtocol` of `src/protocol/mod.rs`. -/
structure NotificationProtocol where
  name : ProtocolName
deriving DecidableEq

/-- `NotificationProtocol::to_string`. -/
def NotificationProtocol.to_string (p : NotificationProtocol) (fuel : Nat) :
    Option String :=
  displayFmt fuel p.name

end ProtoMod

/-! The websocket transport, `src/transport/websocket/mod.rs`. -/

/-- Raw websocket stream (`WebSocketStream<MaybeTlsStream<TcpStream>>`),
opaque token. -/
abbrev RawStream := Nat

/-- `WebSocketError`: an error plus the connection id it concerns, when
known. -/
structure WebSocketError where
  error : Error
  connectionId : Option ConnectionId
deriving DecidableEq

/-- A fully negotiated websocket connection (`NegotiatedConnection`),
exposing `peer()`, `endpoint()` and `connection_id()`. -/
structure NegotiatedConnection where
  peer : PeerId
  endpoint : Multiaddr
  connectionId : ConnectionId
deriving DecidableEq

/-- Transport events emitted by `WebSocketTransport::poll_next`. -/
inductive TransportEvent
  | ConnectionOpened (connectionId : ConnectionId) (address : Multiaddr)
  | OpenFailure (connectionId : ConnectionId)
  | ConnectionEstablished (peer : PeerId) (endpoint : Multiaddr)
  | DialFailure (connectionId : ConnectionId) (address : Multiaddr) (error : Error)
deriving DecidableEq

/-- Mutable state of `WebSocketTransport` relevant to the lifecycle calls:
`pending_dials`, the `canceled` set, `opened_raw` and `pending_open`. The
futures collections are represented by the resolution lists fed to
`poll_next`. -/
structure WebSocketTransport where
  pendingDials : List (ConnectionId × Multiaddr)
  canceled : List ConnectionId
  openedRaw : List (ConnectionId × (RawStream × Multiaddr))
  pendingOpen : List (ConnectionId × NegotiatedConnection)
deriving DecidableEq

/-- `HashSet::insert`. -/
def insertId (id : ConnectionId) (l : List ConnectionId) : List ConnectionId :=
  if id ∈ l then l else id :: l

/-- `HashSet::remove` (the membership test is done separately). -/
def removeId (id : ConnectionId) (l : List ConnectionId) : List ConnectionId :=
  l.filter (fun x => x ≠ id)

/-- The dial-address fragment derived from the first protocol component in
`multiaddr_into_url` (IPv6 addresses are bracketed). -/
def dialAddressOf : MProtocol → Option String
  | .Ip4 a => some a
  | .Ip6 a => some ("[" ++ a ++ "]")
  | .Dns a => some a
  | .Dns4 a => some a
  | .Dns6 a => some a
  | _ => none

/-- Tail of `multiaddr_into_url`: after the url is built, the next protocol
component must be `P2p` carrying the peer id; `Url::parse` of the
constructed `ws://`/`wss://` url is modelled as always succeeding. -/
def urlWithPeer (_address : Multiaddr) (url : String) :
    List MProtocol → Except Error (String × PeerId)
  | .P2p peer :: _ => .ok (url, peer)
  | _ => .error .AddressErrorPeerIdMissing

/-- `WebSocketTransport::multiaddr_into_url`: first component gives the host
fragment, second must be `Tcp(port)`, third `Ws`/`Wss`, fourth `P2p`. -/
def multiaddrIntoUrl (address : Multiaddr) : Except Error (String × PeerId) :=
  match address with
  | [] => .error (.TransportNotSupported address)
  | first :: rest =>
    match dialAddressOf first with
    | none => .error (.TransportNotSupported address)
    | some dialAddr =>
      match rest with
      | .Tcp port :: .Ws _ :: rest3 =>
          urlWithPeer address ("ws://" ++ dialAddr ++ ":" ++ toString port ++ "/") rest3
      | .Tcp port :: .Wss _ :: rest3 =>
          urlWithPeer address ("wss://" ++ dialAddr ++ ":" ++ toString port ++ "/") rest3
      | .Tcp _ :: _ => .error (.TransportNotSupported address)
      | _ => .error (.TransportNotSupported address)

/-- Data captured by the dial future pushed onto `pending_connections`. -/
structure DialFuture where
  connectionId : ConnectionId
  address : Multiaddr
  url : String
  peer : PeerId
deriving DecidableEq

/-- `WebSocketTransport::dial`: parses the address (an error is returned
before any state change), records the address under the connection id in
`pending_dials` and registers the dial future. -/
def WebSocketTransport.dial (s : WebSocketTransport) (connectionId : ConnectionId)
    (address : Multiaddr) : Except Error DialFuture × WebSocketTransport :=
  match multiaddrIntoUrl address with
  | .error e => (.error e, s)
  | .ok (url, peer) =>
      (.ok { connectionId := connectionId, address := address, url := url, peer := peer },
       { s with pendingDials := insertAssoc connectionId address s.pendingDials })

/-- `WebSocketTransport::cancel`: only inserts the id into the canceled
set. -/
def WebSocketTransport.cancel (s : WebSocketTransport) (connectionId : ConnectionId) :
    WebSocketTransport :=
  { s with canceled := insertId connectionId s.canceled }

/-- First protocol component of the address that is `P2p`
(`address.iter().find(matches Protocol::P2p)`). -/
def findP2p : Multiaddr → Option PeerId
  | [] => none
  | .P2p peer :: _ => some peer
  | _ :: rest => findP2p rest

/-- Data captured by the negotiate future pushed onto
`pending_connections`. -/
structure NegotiateFuture where
  connectionId : ConnectionId
  peer : PeerId
  address : Multiaddr
  stream : RawStream
deriving DecidableEq

/-- `WebSocketTransport::negotiate`: removes the raw connection (the removal
persists even when the peer id is missing and `InvalidState` is returned),
records the address in `pending_dials` and registers the negotiation
future. -/
def WebSocketTransport.negotiate (s : WebSocketTransport)
    (connectionId : ConnectionId) :
    Except Error NegotiateFuture × WebSocketTransport :=
  match lookupAssoc connectionId s.openedRaw with
  | none => (.error (.ConnectionDoesntExist connectionId), s)
  | some (stream, address) =>
    let s1 : WebSocketTransport :=
      { s with openedRaw := removeAssoc connectionId s.openedRaw }
    match findP2p address with
    | none => (.error .InvalidState, s1)
    | some peer =>
        (.ok { connectionId := connectionId, peer := peer, address := address,
               stream := stream },
         { s1 with pendingDials := insertAssoc connectionId address s1.pendingDials })

/-- How a future wrapped in `tokio::time::timeout` finished: the inner
future resolved in time, or the deadline expired first. -/
inductive TimedOutcome (α : Type)
  | resolved (r : Except Error α)
  | deadlineExpired

/-- Resolution of a dial future (`WebSocketTransport::dial`, the match on
the timeout result): deadline expiry becomes `Error::Timeout` tagged with
the connection id, an inner error is tagged likewise by the `map_err`
inside the timed block. -/
def dialFutureResult (connectionId : ConnectionId)
    (outcome : TimedOutcome NegotiatedConnection) :
    Except WebSocketError NegotiatedConnection :=
  match outcome with
  | .deadlineExpired => .error { error := .Timeout, connectionId := some connectionId }
  | .resolved (.error e) => .error { error := e, connectionId := some connectionId }
  | .resolved (.ok c) => .ok c

/-- Resolution of a negotiate future (`WebSocketTransport::negotiate`); the
match on the timeout result is identical to the dial case. -/
def negotiateFutureResult (connectionId : ConnectionId)
    (outcome : TimedOutcome NegotiatedConnection) :
    Except WebSocketError NegotiatedConnection :=
  match outcome with
  | .deadlineExpired => .error { error := .Timeout, connectionId := some connectionId }
  | .resolved (.error e) => .error { error := e, connectionId := some connectionId }
  | .resolved (.ok c) => .ok c

/-- A result yielded by the `pending_raw_connections` futures (the `open()`
path): either a first successful address with its stream, or failure of
every candidate address, reported by bare connection id. -/
inductive RawResult
  | ok (connectionId : ConnectionId) (address : Multiaddr) (stream : RawStream)
  | err (connectionId : ConnectionId)
deriving DecidableEq

/-- A result yielded by the `pending_connections` futures (dial, negotiate
and listener-accept futures). -/
inductive ConnResult
  | ok (connection : NegotiatedConnection)
  | err (error : Error) (connectionId : Option ConnectionId)
deriving DecidableEq

/-- Outcome of one `WebSocketTransport::poll_next` invocation; `ended` is
`Poll::Ready(None)`. -/
inductive WsPoll
  | event (ev : TransportEvent)
  | pending
  | ended
deriving DecidableEq

/-- The listener loop of `poll_next`: accepted streams only push new accept
futures (no event); a listener error ends the stream (`return
Poll::Ready(None)`). `none` in the input list models the error case. -/
def listenerHitError : List (Option (RawStream × Multiaddr)) → Bool
  | [] => false
  | none :: _ => true
  | some _ :: rest => listenerHitError rest

/-- The `pending_raw_connections` loop of `poll_next`: a canceled id is
removed from the canceled set and its result discarded; otherwise a success
is stored in `opened_raw` and emits `ConnectionOpened`, a failure emits
`OpenFailure`. -/
def rawLoop (s : WebSocketTransport) :
    List RawResult → Option TransportEvent × WebSocketTransport
  | [] => (none, s)
  | .ok connectionId address stream :: rest =>
      if connectionId ∈ s.canceled then
        rawLoop { s with canceled := removeId connectionId s.canceled } rest
      else
        (some (.ConnectionOpened connectionId address),
         { s with openedRaw := insertAssoc connectionId (stream, address) s.openedRaw })
  | .err connectionId :: rest =>
      if connectionId ∈ s.canceled then
        rawLoop { s with canceled := removeId connectionId s.canceled } rest
      else
        (some (.OpenFailure connectionId), s)

/-- The `pending_connections` loop of `poll_next`: a success is stored in
`pending_open` and emits `ConnectionEstablished`; an error with a known
connection id emits `DialFailure` when `pending_dials` still holds the
address (removing it), and is only logged otherwise. The canceled set is
never consulted here. -/
def connLoop (s : WebSocketTransport) :
    List ConnResult → Option TransportEvent × WebSocketTransport
  | [] => (none, s)
  | .ok c :: _ =>
      (some (.ConnectionEstablished c.peer c.endpoint),
       { s with pendingOpen := insertAssoc c.connectionId c s.pendingOpen })
  | .err e oid :: rest =>
      match oid with
      | some connectionId =>
        match lookupAssoc connectionId s.pendingDials with
        | some address =>
            (some (.DialFailure connectionId address e),
             { s with pendingDials := removeAssoc connectionId s.pendingDials })
        | none => connLoop s rest
      | none => connLoop s rest

/-- `WebSocketTransport::poll_next`: listener loop, raw-connection loop,
negotiated-connection loop, in the source order; the first event found is
returned. The three resolution lists carry the futures that complete during
this invocation. -/
def WebSocketTransport.poll_next (s : WebSocketTransport)
    (listenerResults : List (Option (RawStream × Multiaddr)))
    (rawResults : List RawResult) (connResults : List ConnResult) :
    WsPoll × WebSocketTransport :=
  if listenerHitError listenerResults then (.ended, s)
  else
    match rawLoop s rawResults with
    | (some ev, s1) => (.event ev, s1)
    | (none, s1) =>
      match connLoop s1 connResults with
      | (some ev, s2) => (.event ev, s2)
      | (none, s2) => (.pending, s2)

/-! The QUIC connection event loop, `src/transport/quic/connection.rs`. -/

/-- Substream direction (`crate::protocol::Direction`): inbound, or outbound
tagged with the substream id of the open request. -/
inductive QDirection
  | Inbound
  | Outbound (substreamId : SubstreamId)
deriving DecidableEq

/-- A negotiated QUIC substream (struct `Substream` of `connection.rs`); the
`s2n-quic` stream is an opaque token. -/
structure QSubstream where
  direction : QDirection
  protocol : ProtocolName
  io : Nat
deriving DecidableEq

/-- `ConnectionError` of `connection.rs`. -/
inductive QuicConnectionError
  | Timeout (protocol : Option ProtocolName) (substreamId : Option SubstreamId)
  | FailedToNegotiate (protocol : Option ProtocolName)
      (substreamId : Option SubstreamId) (error : Error)
deriving DecidableEq

/-- Resolution of the accept future pushed for an inbound substream (the
`accept_bidirectional_stream` arm of `QuicConnection::start`): both the
timeout and a negotiation failure are recorded with `protocol: None,
substream_id: None`. -/
def acceptSubstreamResult (outcome : TimedOutcome QSubstream) :
    Except QuicConnectionError QSubstream :=
  match outcome with
  | .resolved (.ok sub) => .ok sub
  | .resolved (.error e) => .error (.FailedToNegotiate none none e)
  | .deadlineExpired => .error (.Timeout none none)

/-- Resolution of the open future pushed for an outbound substream (the
`ProtocolCommand::OpenSubstream` arm): failures carry the protocol and the
substream id. -/
def openSubstreamResult (protocol : ProtocolName) (substreamId : SubstreamId)
    (outcome : TimedOutcome QSubstream) : Except QuicConnectionError QSubstream :=
  match outcome with
  | .resolved (.ok sub) => .ok sub
  | .resolved (.error e) =>
      .error (.FailedToNegotiate (some protocol) (some substreamId) e)
  | .deadlineExpired => .error (.Timeout (some protocol) (some substreamId))

/-- A report issued to the protocol set by the event loop. -/
inductive QuicReport
  | substreamOpenFailure (protocol : ProtocolName) (substreamId : SubstreamId)
      (error : Error)
  | substreamOpened (peer : PeerId) (protocol : ProtocolName)
      (direction : QDirection) (substream : QSubstream)
deriving DecidableEq

/-- The destructuring of a `ConnectionError` in the failure arm of
`QuicConnection::start` (a timeout is flattened to `Error::Timeout`). -/
def failureParts (e : QuicConnectionError) :
    Option ProtocolName × Option SubstreamId × Error :=
  match e with
  | .Timeout protocol substreamId => (protocol, substreamId, .Timeout)
  | .FailedToNegotiate protocol substreamId error => (protocol, substreamId, error)

/-- The `pending_substreams` arm of `QuicConnection::start`: a failure is
reported via `report_substream_open_failure` only when both the protocol
and the substream id are present — otherwise only a debug log line is
produced; a success is always reported via `report_substream_open`. -/
def handleSubstreamResult (peer : PeerId)
    (result : Except QuicConnectionError QSubstream) : Option QuicReport :=
  match result with
  | .error e =>
    match failureParts e with
    | (some protocol, some substreamId, error) =>
        some (.substreamOpenFailure protocol substreamId error)
    | _ => none
  | .ok sub => some (.substreamOpened peer sub.protocol sub.direction sub)

/-! Supporting definitions for the concrete scenarios used below. -/

/-- States strictly past `SinkReady` in the progression of their direction
path: `Outbound` runs SendHandshake, SinkReady, HandshakeSent, ReadHandshake;
`Inbound` runs SendHandshake, SinkReady, HandshakeSent; `InboundAccepting`
runs ReadHandshake, SendHandshake, SinkReady, HandshakeSent. -/
def pastSinkReady : Direction → OutboundHandshakeState → Bool
  | .Outbound, .HandshakeSent => true
  | .Outbound, .ReadHandshake => true
  | .Inbound, .HandshakeSent => true
  | .InboundAccepting, .HandshakeSent => true
  | _, _ => false

/-- A substream whose first readiness poll reports an I/O error. -/
def cxSubError : Substream :=
  { readyScript := [.err], sendScript := [], flushScript := [], readScript := [],
    sent := [] }

/-- A substream with no scripted responses. -/
def cxSubEmpty : Substream :=
  { readyScript := [], sendScript := [], flushScript := [], readScript := [],
    sent := [] }

/-- A handshake service holding one outbound entry whose substream errors. -/
def cxServiceErr : HandshakeService :=
  { handshake := [],
    substreams := [((0, Direction.Outbound), (cxSubError, OutboundHandshakeState.SendHandshake))],
    ready := [] }

/-- A substream that answers every primitive of the inbound-accepting path:
the remote handshake read yields bytes, then readiness, send and flush all
succeed. -/
def cxSubAccept : Substream :=
  { readyScript := [.ok], sendScript := [.ok], flushScript := [.ok],
    readScript := [.data [7, 7]], sent := [] }

/-- A service about to run the inbound-accepting path to completion. -/
def cxServiceAccept : HandshakeService :=
  { handshake := [1, 2],
    substreams := [((5, Direction.InboundAccepting), (cxSubAccept, OutboundHandshakeState.ReadHandshake))],
    ready := [] }

/-- A service whose ready queue already holds a completed inbound-accepting
entry at the front when `poll_next` is invoked. -/
def cxServiceAcceptReady : HandshakeService :=
  { handshake := [],
    substreams := [((5, Direction.InboundAccepting), (cxSubEmpty, OutboundHandshakeState.ReadHandshake))],
    ready := [(5, Direction.InboundAccepting, [])] }

/-- A service with an outbound entry already completed and queued, used for
the FIFO-delivery witness. -/
def cxServiceFifo : HandshakeService :=
  { handshake := [],
    substreams := [((3, Direction.Outbound), (cxSubEmpty, OutboundHandshakeState.ReadHandshake))],
    ready := [(3, Direction.Outbound, [9, 9])] }

/-- A well-formed websocket multiaddress carrying peer id 9. -/
def cxAddr : Multiaddr := [.Ip4 "1.2.3.4", .Tcp 80, .Ws "/", .P2p 9]

/-- A websocket transport with one pending dial for connection id 7. -/
def cxWs : WebSocketTransport :=
  { pendingDials := [(7, cxAddr)], canceled := [], openedRaw := [], pendingOpen := [] }

/-- The same transport after `cancel(7)`. -/
def cxWsCanceled : WebSocketTransport := cxWs.cancel 7

/-- A negotiated connection for connection id 7. -/
def cxConn : NegotiatedConnection :=
  { peer := 9, endpoint := cxAddr, connectionId := 7 }

/-- An open event channel with spare capacity. -/
def cxChannel : EventChannel := { capacity := 4, closed := false, queued := [] }

/-- A dispatcher table with a single registered protocol. -/
def cxInfo : ProtocolInfo := { protocols := [("/ping/1", cxChannel)] }

/-- The substream registered first in the duplicate-registration scenario. -/
def cxSubOld : Substream :=
  { readyScript := [], sendScript := [], flushScript := [], readScript := [.data [4]],
    sent := [] }

/-- The substream registered second, under the same key. -/
def cxSubNew : Substream :=
  { readyScript := [.ok], sendScript := [], flushScript := [], readScript := [],
    sent := [] }

/-! Helper lemmas. -/

/-- Lookup after inserting under the same key yields the inserted value. -/
theorem lookupAssoc_insertAssoc_self {κ α : Type} [DecidableEq κ] (key : κ) (val : α) :
    ∀ l : List (κ × α), lookupAssoc key (insertAssoc key val l) = some val := by
  intro l
  induction l with
  | nil => simp [insertAssoc, lookupAssoc]
  | cons head tail ih =>
    obtain ⟨k, v⟩ := head
    by_cases h : k = key
    · simp [insertAssoc, lookupAssoc, h]
    · simp [insertAssoc, lookupAssoc, h, ih]

/-- Flush polling never touches the record of sent payloads. -/
theorem pollFlushSub_sent (s : Substream) : (pollFlushSub s).2.sent = s.sent := by
  unfold pollFlushSub
  cases s.flushScript <;> rfl

/-- Reading from the substream never touches the record of sent payloads. -/
theorem pollNextSub_sent (s : Substream) : (pollNextSub s).2.sent = s.sent := by
  unfold pollNextSub
  cases s.readScript <;> rfl

/-- For an entry strictly past `SinkReady`, driving the entry neither reads
the local handshake payload (the outcome is the same for any two payloads)
nor sends anything new (the record of sent payloads is unchanged). -/
theorem stepEntry_past_sink (peer : PeerId) (h₁ h₂ : Bytes) :
    ∀ (fuel : Nat) (dir : Direction) (st : OutboundHandshakeState) (sub : Substream),
      pastSinkReady dir st = true →
      stepEntry h₁ peer dir fuel sub st = stepEntry h₂ peer dir fuel sub st ∧
      (stepEntry h₁ peer dir fuel sub st).substream.sent = sub.sent := by
  intro fuel
  induction fuel with
  | zero =>
    intro dir st sub _
    exact ⟨rfl, rfl⟩
  | succ n ih =>
    intro dir st sub hpast
    cases dir with
    | Outbound =>
      cases st with
      | SendHandshake => simp [pastSinkReady] at hpast
      | SinkReady => simp [pastSinkReady] at hpast
      | HandshakeSent =>
        rcases hflush : pollFlushSub sub with ⟨r, sub'⟩
        have hsent : sub'.sent = sub.sent := by
          have h := pollFlushSub_sent sub
          rw [hflush] at h
          exact h
        cases r with
        | ok =>
          have hrec := ih Direction.Outbound OutboundHandshakeState.ReadHandshake sub' rfl
          refine ⟨?_, ?_⟩
          · simp only [stepEntry, hflush]
            exact hrec.1
          · simp only [stepEntry, hflush]
            rw [hrec.2, hsent]
        | err =>
          refine ⟨?_, ?_⟩ <;> simp only [stepEntry, hflush, StepOutcome.substream, hsent]
        | pend =>
          refine ⟨?_, ?_⟩ <;> simp only [stepEntry, hflush, StepOutcome.substream, hsent]
      | ReadHandshake =>
        rcases hread : pollNextSub sub with ⟨r, sub'⟩
        have hsent : sub'.sent = sub.sent := by
          have h := pollNextSub_sent sub
          rw [hread] at h
          exact h
        cases r with
        | data bytes =>
          refine ⟨?_, ?_⟩ <;> simp only [stepEntry, hread, StepOutcome.substream, hsent]
        | ioErr =>
          refine ⟨?_, ?_⟩ <;> simp only [stepEntry, hread, StepOutcome.substream, hsent]
        | closed =>
          refine ⟨?_, ?_⟩ <;> simp only [stepEntry, hread, StepOutcome.substream, hsent]
        | pend =>
          refine ⟨?_, ?_⟩ <;> simp only [stepEntry, hread, StepOutcome.substream, hsent]
    | Inbound =>
      cases st with
      | SendHandshake => simp [pastSinkReady] at hpast
      | SinkReady => simp [pastSinkReady] at hpast
      | ReadHandshake => simp [pastSinkReady] at hpast
      | HandshakeSent =>
        rcases hflush : pollFlushSub sub with ⟨r, sub'⟩
        have hsent : sub'.sent = sub.sent := by
          have h := pollFlushSub_sent sub
          rw [hflush] at h
          exact h
        cases r with
        | ok =>
          refine ⟨?_, ?_⟩ <;> simp only [stepEntry, hflush, StepOutcome.substream, hsent]
        | err =>
          refine ⟨?_, ?_⟩ <;> simp only [stepEntry, hflush, StepOutcome.substream, hsent]
        | pend =>
          refine ⟨?_, ?_⟩ <;> simp only [stepEntry, hflush, StepOutcome.substream, hsent]
    | InboundAccepting =>
      cases st with
      | SendHandshake => simp [pastSinkReady] at hpast
      | SinkReady => simp [pastSinkReady] at hpast
      | ReadHandshake => simp [pastSinkReady] at hpast
      | HandshakeSent =>
        rcases hflush : pollFlushSub sub with ⟨r, sub'⟩
        have hsent : sub'.sent = sub.sent := by
          have h := pollFlushSub_sent sub
          rw [hflush] at h
          exact h
        cases r with
        | ok =>
          refine ⟨?_, ?_⟩ <;> simp only [stepEntry, hflush, StepOutcome.substream, hsent]
        | err =>
          refine ⟨?_, ?_⟩ <;> simp only [stepEntry, hflush, StepOutcome.substream, hsent]
        | pend =>
          refine ⟨?_, ?_⟩ <;> simp only [stepEntry, hflush, StepOutcome.substream, hsent]

/-- Claim C1, counterexample: connection id 7 is canceled while its dial is
in flight, yet when the dial future resolves `poll_next` still emits
`DialFailure` for id 7 (error case) and `ConnectionEstablished` storing id 7
in `pending_open` (success case) — the canceled set is never consulted on the
`pending_connections` path. -/
theorem c1_canceled_dial_still_emits :
    7 ∈ cxWsCanceled.canceled ∧
    (WebSocketTransport.poll_next cxWsCanceled [] [] [ConnResult.err Error.Timeout (some 7)]).1
      = WsPoll.event (TransportEvent.DialFailure 7 cxAddr Error.Timeout) ∧
    (WebSocketTransport.poll_next cxWsCanceled [] [] [ConnResult.ok cxConn]).1
      = WsPoll.event (TransportEvent.ConnectionEstablished 9 cxAddr) ∧
    lookupAssoc 7 (WebSocketTransport.poll_next cxWsCanceled [] [] [ConnResult.ok cxConn]).2.pendingOpen
      = some cxConn := by
  decide

/-- Claim C1 as amended: cancellation filters only the raw-connection
(`open()`) path — the raw result of a canceled id is discarded and the id removed
from the canceled set — while the dial/negotiate path emits
`ConnectionEstablished`/`DialFailure` regardless of cancellation. -/
theorem c1_cancel_filters_only_raw_path (s : WebSocketTransport) (id : ConnectionId)
    (address : Multiaddr) (stream : RawStream) (e : Error) (rest : List RawResult)
    (hmem : id ∈ s.canceled) :
    rawLoop s (RawResult.ok id address stream :: rest)
      = rawLoop { s with canceled := removeId id s.canceled } rest ∧
    rawLoop s (RawResult.err id :: rest)
      = rawLoop { s with canceled := removeId id s.canceled } rest ∧
    (∀ addr2 : Multiaddr, lookupAssoc id s.pendingDials = some addr2 →
      connLoop s [ConnResult.err e (some id)]
        = (some (TransportEvent.DialFailure id addr2 e),
           { s with pendingDials := removeAssoc id s.pendingDials })) := by
  refine ⟨?_, ?_, ?_⟩
  · simp [rawLoop, hmem]
  · simp [rawLoop, hmem]
  · intro addr2 hdial
    simp [connLoop, hdial]

/-- Witness for the amended claim C1 at the concrete canceled transport. -/
theorem c1_cancel_filters_only_raw_path_witness :
    rawLoop cxWsCanceled [RawResult.ok 7 cxAddr 11]
      = rawLoop { cxWsCanceled with canceled := removeId 7 cxWsCanceled.canceled } [] ∧
    rawLoop cxWsCanceled [RawResult.err 7]
      = rawLoop { cxWsCanceled with canceled := removeId 7 cxWsCanceled.canceled } [] ∧
    connLoop cxWsCanceled [ConnResult.err Error.Timeout (some 7)]
      = (some (TransportEvent.DialFailure 7 cxAddr Error.Timeout),
         { cxWsCanceled with pendingDials := removeAssoc 7 cxWsCanceled.pendingDials }) := by
  have h := c1_cancel_filters_only_raw_path cxWsCanceled 7 cxAddr 11 Error.Timeout []
    (by decide)
  exact ⟨h.1, h.2.1, h.2.2 cxAddr (by decide)⟩

/-- Claim C2, counterexample: a substream I/O error makes `poll_next` emit
the negotiation-error event, but the entry is not removed from the pending
map — it is still there afterwards and `is_empty` stays false. -/
theorem c2_error_leaves_entry_counterexample :
    (pollNext cxServiceErr).1 = PollOutcome.event 0 (HandshakeEvent.OutboundNegotiationError 0) ∧
    (pollNext cxServiceErr).2.is_empty = false ∧
    lookupAssoc (0, Direction.Outbound) (pollNext cxServiceErr).2.substreams
      = some (cxSubEmpty, OutboundHandshakeState.SendHandshake) := by
  decide

/-- Claim C2 as amended: when the entry at the head of the map errors,
`poll_next` emits a negotiation-error event but leaves the entry (with its
consumed substream) in the pending map, so `is_empty` remains false until an
explicit `remove_outbound`/`remove_inbound` call. -/
theorem c2_error_event_keeps_entry (s : HandshakeService) (peer : PeerId)
    (dir : Direction) (sub sub' : Substream) (st st' : OutboundHandshakeState)
    (rest : List ServiceEntry)
    (hready : s.ready = [])
    (hsubs : s.substreams = ((peer, dir), (sub, st)) :: rest)
    (hstep : runEntry s.handshake peer dir sub st = StepOutcome.errorEvent sub' st') :
    (pollNext s).1 = PollOutcome.event peer (HandshakeEvent.OutboundNegotiationError peer) ∧
    (pollNext s).2.substreams = ((peer, dir), (sub', st')) :: rest ∧
    (pollNext s).2.is_empty = false := by
  have hpop : popReady false s = none := by
    simp [popReady, hready]
  have hloop : progressLoop s.handshake (((peer, dir), (sub, st)) :: rest)
      = (some peer, ((peer, dir), (sub', st')) :: rest, []) := by
    simp [progressLoop, hstep]
  simp [pollNext, hpop, hsubs, hloop, HandshakeService.is_empty]

/-- Witness for the amended claim C2: the erroring entry of the concrete
service is retained across the error event. -/
theorem c2_error_event_keeps_entry_witness :
    (pollNext cxServiceErr).1 = PollOutcome.event 0 (HandshakeEvent.OutboundNegotiationError 0) ∧
    (pollNext cxServiceErr).2.substreams
      = [((0, Direction.Outbound), (cxSubEmpty, OutboundHandshakeState.SendHandshake))] ∧
    (pollNext cxServiceErr).2.is_empty = false := by
  have h := c2_error_event_keeps_entry cxServiceErr 0 Direction.Outbound cxSubError
    cxSubEmpty OutboundHandshakeState.SendHandshake OutboundHandshakeState.SendHandshake
    [] rfl rfl (by decide)
  exact h

/-- Claim C3, counterexample: a timed-out or failed inbound substream accept
resolves to an error tagged `protocol: None, substream_id: None`, and the
failure arm of the event loop issues no report at all for it. -/
theorem c3_accept_failure_swallowed_counterexample :
    handleSubstreamResult 0 (acceptSubstreamResult TimedOutcome.deadlineExpired) = none ∧
    handleSubstreamResult 0 (acceptSubstreamResult (TimedOutcome.resolved (Except.error Error.Unknown)))
      = none := by
  exact ⟨rfl, rfl⟩

/-- Claim C3 as amended: only failures carrying both a protocol and a
substream id — the outbound open path — are reported through
`report_substream_open_failure`; inbound accept failures are logged and
swallowed; successes are always reported. -/
theorem c3_only_tagged_failures_reported (peer : PeerId) (protocol : ProtocolName)
    (substreamId : SubstreamId) (e : Error) (sub : QSubstream) :
    handleSubstreamResult peer (acceptSubstreamResult TimedOutcome.deadlineExpired) = none ∧
    handleSubstreamResult peer (acceptSubstreamResult (TimedOutcome.resolved (Except.error e)))
      = none ∧
    handleSubstreamResult peer (openSubstreamResult protocol substreamId TimedOutcome.deadlineExpired)
      = some (QuicReport.substreamOpenFailure protocol substreamId Error.Timeout) ∧
    handleSubstreamResult peer
        (openSubstreamResult protocol substreamId (TimedOutcome.resolved (Except.error e)))
      = some (QuicReport.substreamOpenFailure protocol substreamId e) ∧
    handleSubstreamResult peer (Except.ok sub)
      = some (QuicReport.substreamOpened peer sub.protocol sub.direction sub) := by
  exact ⟨rfl, rfl, rfl, rfl, rfl⟩

/-- Claim C4: the inbound-accepting path does read the remote payload before
answering and, when it completes within the invocation that finishes it,
`poll_next` returns `InboundAccepted` with the negotiated substream (which
has recorded the local payload sent after the read); but a completed
inbound-accepting entry still queued at the next invocation hits the
`todo!()` arm of the first pop and panics. -/
theorem c4_inbound_accepting_completion_and_panic :
    (pollNext cxServiceAccept).1
      = PollOutcome.event 5 (HandshakeEvent.InboundAccepted 5
          { readyScript := [], sendScript := [], flushScript := [], readScript := [],
            sent := [[1, 2]] }) ∧
    (pollNext cxServiceAccept).2.substreams = [] ∧
    (pollNext cxServiceAcceptReady).1 = PollOutcome.panicked := by
  decide

/-- Claim C5: one `poll_next` invocation emits at most one event, and
completed entries are delivered from the front of the FIFO ready queue: when
the queue head is a completed outbound or inbound entry, exactly that entry
is emitted and the rest of the queue is preserved in order. -/
theorem c5_single_event_fifo (s : HandshakeService) (peer : PeerId) (d : Direction)
    (b : Bytes) (rest : List (PeerId × Direction × Bytes)) (sub : Substream)
    (st : OutboundHandshakeState)
    (hready : s.ready = (peer, d, b) :: rest)
    (hlook : lookupAssoc (peer, d) s.substreams = some (sub, st))
    (hdir : d = Direction.Outbound ∨ d = Direction.Inbound) :
    (∀ t : HandshakeService, (pollNext t).1.eventCount ≤ 1) ∧
    (pollNext s).2.ready = rest ∧
    (pollNext s).1 = PollOutcome.event peer
      (if d = Direction.Outbound then HandshakeEvent.OutboundNegotiated peer b sub
       else HandshakeEvent.InboundNegotiated peer b sub) := by
  have hpoll : pollNext s
      = (PollOutcome.event peer
          (if d = Direction.Outbound then HandshakeEvent.OutboundNegotiated peer b sub
           else HandshakeEvent.InboundNegotiated peer b sub),
         { s with ready := rest, substreams := removeAssoc (peer, d) s.substreams }) := by
    rcases hdir with h | h <;> subst h <;> simp [pollNext, popReady, hready, hlook]
  refine ⟨?_, ?_, ?_⟩
  · intro t
    cases (pollNext t).1 <;> simp [PollOutcome.eventCount]
  · rw [hpoll]
  · rw [hpoll]

/-- Witness for claim C5 at a service with one queued outbound completion. -/
theorem c5_single_event_fifo_witness :
    (pollNext cxServiceFifo).1.eventCount ≤ 1 ∧
    (pollNext cxServiceFifo).2.ready = [] ∧
    (pollNext cxServiceFifo).1
      = PollOutcome.event 3 (HandshakeEvent.OutboundNegotiated 3 [9, 9] cxSubEmpty) := by
  have h := c5_single_event_fifo cxServiceFifo 3 Direction.Outbound [9, 9] [] cxSubEmpty
    OutboundHandshakeState.ReadHandshake rfl (by decide) (Or.inl rfl)
  exact ⟨h.1 cxServiceFifo, h.2.1, by simpa using h.2.2⟩

/-- Claim C6: `set_handshake` changes only the local handshake payload —
pending entries and the ready queue are untouched — and driving an entry
strictly past `SinkReady` neither depends on the stored payload (so entries
past that point keep the payload they already sent) nor records any new sent
payload. -/
theorem c6_set_handshake_local_only (s : HandshakeService) (bytes h₁ h₂ : Bytes)
    (peer : PeerId) (fuel : Nat) (dir : Direction) (sub : Substream)
    (st : OutboundHandshakeState) (hpast : pastSinkReady dir st = true) :
    (s.set_handshake bytes).handshake = bytes ∧
    (s.set_handshake bytes).substreams = s.substreams ∧
    (s.set_handshake bytes).ready = s.ready ∧
    stepEntry h₁ peer dir fuel sub st = stepEntry h₂ peer dir fuel sub st ∧
    (stepEntry h₁ peer dir fuel sub st).substream.sent = sub.sent := by
  have h := stepEntry_past_sink peer h₁ h₂ fuel dir st sub hpast
  exact ⟨rfl, rfl, rfl, h.1, h.2⟩

/-- Witness for claim C6 at an outbound entry already in `HandshakeSent`. -/
theorem c6_set_handshake_local_only_witness :
    (cxServiceFifo.set_handshake [9]).handshake = [9] ∧
    (cxServiceFifo.set_handshake [9]).substreams = cxServiceFifo.substreams ∧
    (cxServiceFifo.set_handshake [9]).ready = cxServiceFifo.ready ∧
    stepEntry [1] 5 Direction.Outbound 6 cxSubAccept OutboundHandshakeState.HandshakeSent
      = stepEntry [2] 5 Direction.Outbound 6 cxSubAccept OutboundHandshakeState.HandshakeSent ∧
    (stepEntry [1] 5 Direction.Outbound 6 cxSubAccept OutboundHandshakeState.HandshakeSent).substream.sent
      = cxSubAccept.sent := by
  exact c6_set_handshake_local_only cxServiceFifo [9] [1] [2] 5 6 Direction.Outbound
    cxSubAccept OutboundHandshakeState.HandshakeSent (by decide)

/-- Claim C7: reporting to an unregistered protocol fails immediately with
`ProtocolNotSupported` (it is an error return, not a suspension), and
reporting to a registered protocol forwards the event onto exactly the
channel of that protocol. -/
theorem c7_report_dispatch (info : ProtocolInfo) (protocol : ProtocolName)
    (peer : PeerId) (substream : Nat) (e : Error) (ch : EventChannel) :
    (lookupAssoc protocol info.protocols = none →
      info.report_substream_open protocol peer substream
        = ReportResult.failed (Error.ProtocolNotSupported protocol) ∧
      info.report_substream_open_failure protocol peer e
        = ReportResult.failed (Error.ProtocolNotSupported protocol)) ∧
    (lookupAssoc protocol info.protocols = some ch → ch.closed = false →
      ch.queued.length < ch.capacity →
      info.report_substream_open protocol peer substream
        = ReportResult.forwarded ⟨insertAssoc protocol
            (pushEvent ch (ConnectionEvent.SubstreamOpened peer substream)) info.protocols⟩ ∧
      info.report_substream_open_failure protocol peer e
        = ReportResult.forwarded ⟨insertAssoc protocol
            (pushEvent ch (ConnectionEvent.SubstreamOpenFailure peer e)) info.protocols⟩) := by
  constructor
  · intro hnone
    constructor <;>
      simp [ProtocolInfo.report_substream_open,
            ProtocolInfo.report_substream_open_failure, hnone]
  · intro hsome hclosed hlen
    constructor <;>
      simp [ProtocolInfo.report_substream_open,
            ProtocolInfo.report_substream_open_failure, hsome, sendEvent, hclosed, hlen]

/-- Witness for claim C7 with one registered and one unregistered name. -/
theorem c7_report_dispatch_witness :
    cxInfo.report_substream_open "/pong/1" 1 2
      = ReportResult.failed (Error.ProtocolNotSupported "/pong/1") ∧
    cxInfo.report_substream_open "/ping/1" 1 2
      = ReportResult.forwarded ⟨insertAssoc "/ping/1"
          (pushEvent cxChannel (ConnectionEvent.SubstreamOpened 1 2)) cxInfo.protocols⟩ := by
  have h1 := (c7_report_dispatch cxInfo "/pong/1" 1 2 Error.Unknown cxChannel).1 (by decide)
  have h2 := (c7_report_dispatch cxInfo "/ping/1" 1 2 Error.Unknown cxChannel).2
    (by decide) (by decide) (by decide)
  exact ⟨h1.1, h2.1⟩

/-- Claim C8: `dial` registers the address under the connection id, deadline
expiry of the timed dial or negotiate future is normalized to an
`Error::Timeout` tagged with the id, and polling that resolution emits a
`DialFailure` event carrying the dialed address and the timeout error. -/
theorem c8_timeout_normalized (s s' : WebSocketTransport) (id : ConnectionId)
    (address : Multiaddr) (url : String) (peerId : PeerId)
    (hparse : multiaddrIntoUrl address = Except.ok (url, peerId))
    (hdial : lookupAssoc id s'.pendingDials = some address) :
    lookupAssoc id (s.dial id address).2.pendingDials = some address ∧
    dialFutureResult id TimedOutcome.deadlineExpired
      = Except.error { error := Error.Timeout, connectionId := some id } ∧
    negotiateFutureResult id TimedOutcome.deadlineExpired
      = Except.error { error := Error.Timeout, connectionId := some id } ∧
    WebSocketTransport.poll_next s' [] [] [ConnResult.err Error.Timeout (some id)]
      = (WsPoll.event (TransportEvent.DialFailure id address Error.Timeout),
         { s' with pendingDials := removeAssoc id s'.pendingDials }) := by
  refine ⟨?_, rfl, rfl, ?_⟩
  · simp [WebSocketTransport.dial, hparse, lookupAssoc_insertAssoc_self]
  · simp [WebSocketTransport.poll_next, listenerHitError, rawLoop, connLoop, hdial]

/-- Witness for claim C8 at the concrete pending dial of connection id 7. -/
theorem c8_timeout_normalized_witness :
    lookupAssoc 7 (cxWs.dial 7 cxAddr).2.pendingDials = some cxAddr ∧
    dialFutureResult 7 TimedOutcome.deadlineExpired
      = Except.error { error := Error.Timeout, connectionId := some 7 } ∧
    negotiateFutureResult 7 TimedOutcome.deadlineExpired
      = Except.error { error := Error.Timeout, connectionId := some 7 } ∧
    WebSocketTransport.poll_next cxWs [] [] [ConnResult.err Error.Timeout (some 7)]
      = (WsPoll.event (TransportEvent.DialFailure 7 cxAddr Error.Timeout),
         { cxWs with pendingDials := removeAssoc 7 cxWs.pendingDials }) := by
  exact c8_timeout_normalized cxWs cxWs 7 cxAddr "ws://1.2.3.4:80/" 9 rfl rfl

/-- Claim C9, counterexample: registering a second substream under the same
`(peer, Inbound)` key silently replaces the first one — the earlier
substream is gone from the map and no event of any kind is queued. -/
theorem c9_second_registration_drops_first_counterexample :
    cxSubOld ≠ cxSubNew ∧
    ((HandshakeService.new []).read_handshake 3 cxSubOld |>.send_handshake 3 cxSubNew).substreams
      = [((3, Direction.Inbound), (cxSubNew, OutboundHandshakeState.SendHandshake))] ∧
    ((HandshakeService.new []).read_handshake 3 cxSubOld |>.send_handshake 3 cxSubNew).ready
      = [] := by
  decide

/-- Claim C9 as amended: `read_handshake`/`send_handshake` use
`HashMap::insert` under the `(peer, Inbound)` key, so a second registration
for the same peer overwrites the pending entry, discarding the earlier
substream with no failure event (the ready queue is unchanged). -/
theorem c9_insert_replaces_existing_entry (s : HandshakeService) (peer : PeerId)
    (subOld subNew : Substream) (stOld : OutboundHandshakeState)
    (_hold : lookupAssoc (peer, Direction.Inbound) s.substreams = some (subOld, stOld)) :
    lookupAssoc (peer, Direction.Inbound) (s.send_handshake peer subNew).substreams
      = some (subNew, OutboundHandshakeState.SendHandshake) ∧
    (s.send_handshake peer subNew).ready = s.ready ∧
    lookupAssoc (peer, Direction.Inbound) (s.read_handshake peer subNew).substreams
      = some (subNew, OutboundHandshakeState.ReadHandshake) ∧
    (s.read_handshake peer subNew).ready = s.ready := by
  refine ⟨?_, rfl, ?_, rfl⟩ <;>
    simp [HandshakeService.send_handshake, HandshakeService.read_handshake,
          lookupAssoc_insertAssoc_self]

/-- Witness for the amended claim C9. -/
theorem c9_insert_replaces_existing_entry_witness :
    lookupAssoc (3, Direction.Inbound)
        (((HandshakeService.new []).read_handshake 3 cxSubOld).send_handshake 3 cxSubNew).substreams
      = some (cxSubNew, OutboundHandshakeState.SendHandshake) ∧
    (((HandshakeService.new []).read_handshake 3 cxSubOld).send_handshake 3 cxSubNew).ready
      = ((HandshakeService.new []).read_handshake 3 cxSubOld).ready ∧
    lookupAssoc (3, Direction.Inbound)
        (((HandshakeService.new []).read_handshake 3 cxSubOld).read_handshake 3 cxSubNew).substreams
      = some (cxSubNew, OutboundHandshakeState.ReadHandshake) ∧
    (((HandshakeService.new []).read_handshake 3 cxSubOld).read_handshake 3 cxSubNew).ready
      = ((HandshakeService.new []).read_handshake 3 cxSubOld).ready := by
  exact c9_insert_replaces_existing_entry ((HandshakeService.new []).read_handshake 3 cxSubOld)
    3 cxSubOld cxSubNew OutboundHandshakeState.ReadHandshake (by decide)

/-- Claim C10: the `Display` implementation of `protocol::ProtocolName`
formats `self` with a display placeholder, re-entering itself, so formatting
never terminates for any value and any recursion depth — it never yields the
inner static string; `Libp2pProtocol::to_string` and
`NotificationProtocol::to_string` diverge with it. -/
theorem c10_display_fmt_diverges :
    ∀ (fuel : Nat) (p : ProtoMod.ProtocolName),
      ProtoMod.displayFmt fuel p = none ∧
      ProtoMod.Libp2pProtocol.to_string { name := p } fuel = none ∧
      ProtoMod.NotificationProtocol.to_string { name := p } fuel = none := by
  intro fuel
  induction fuel with
  | zero =>
    intro p
    exact ⟨rfl, rfl, rfl⟩
  | succ n ih =>
    intro p
    have h := (ih p).1
    refine ⟨?_, ?_, ?_⟩ <;>
      simp [ProtoMod.displayFmt, ProtoMod.Libp2pProtocol.to_string,
            ProtoMod.NotificationProtocol.to_string, h]

end Litep2p
